import Mathlib

/-!
Verification of the Vulkan bootstrap and frame-loop application (src/App.cpp,
src/main.cpp).  The definitions below are a shallow embedding of the relevant
C++ functions: enumerated Vulkan values become small inductive types, the
queried device/surface state becomes explicit record inputs, uint32 arithmetic
is Nat with an explicit wrap where overflow can occur, and fallible code
returns Except/Option.
-/

/-- VkFormat, restricted to the constructors relevant to format selection.
VK_FORMAT_B8G8R8A8_SRGB is the 32-bit sRGB-encoded BGRA format preferred in
App.chooseSwapSurfaceFormat (App.cpp line 356). -/
inductive VkFormat
| B8G8R8A8_SRGB
| B8G8R8A8_UNORM
| R8G8B8A8_SRGB
| R8G8B8A8_UNORM
deriving DecidableEq

/-- VkColorSpaceKHR, restricted to the constructors relevant here. -/
inductive VkColorSpaceKHR
| SRGB_NONLINEAR
| HDR10_ST2084
deriving DecidableEq

/-- VkSurfaceFormatKHR: format plus color space (App.cpp line 353). -/
structure VkSurfaceFormatKHR where
  format : VkFormat
  colorSpace : VkColorSpaceKHR
deriving DecidableEq

/-- VkPresentModeKHR (App.cpp lines 367-371). -/
inductive VkPresentModeKHR
| immediate
| fifo
| fifoRelaxed
| mailbox
deriving DecidableEq

/-- VkExtent2D: a pair of uint32 dimensions, modelled as Nat. -/
structure VkExtent2D where
  width : Nat
  height : Nat
deriving DecidableEq

/-- The fields of VkSurfaceCapabilitiesKHR read by createSwapChain and
chooseSwapExtent (App.cpp lines 384-429). -/
structure VkSurfaceCapabilitiesKHR where
  minImageCount : Nat
  maxImageCount : Nat
  currentExtent : VkExtent2D
  minImageExtent : VkExtent2D
  maxImageExtent : VkExtent2D
deriving DecidableEq

/-- std::numeric_limits of uint32_t, i.e. 2^32 - 1 (App.cpp line 391). -/
def uint32Max : Nat := 4294967295

/-- One entry of the vkGetPhysicalDeviceQueueFamilyProperties result, together
with the per-family answer of vkGetPhysicalDeviceSurfaceSupportKHR for the
(fixed) window surface.  graphicsSupport models the VK_QUEUE_GRAPHICS_BIT test
of App.cpp line 240; presentSupport models the query of line 244. -/
structure VkQueueFamilyProperties where
  graphicsSupport : Bool
  presentSupport : Bool
deriving DecidableEq

/-- A candidate physical device together with everything the selection code
queries about it: its queue families, its supported device extensions, and the
surface support (capabilities, formats, present modes) reported for it. -/
structure PhysicalDevice where
  queueFamilies : List VkQueueFamilyProperties
  supportedExtensions : List String
  capabilities : VkSurfaceCapabilitiesKHR
  formats : List VkSurfaceFormatKHR
  presentModes : List VkPresentModeKHR
deriving DecidableEq

/-- deviceExtensions (App.cpp line 20): the mandatory swapchain extension. -/
def deviceExtensions : List String := ["VK_KHR_swapchain"]

/-- SwapChainSupportDetails (queried in App.querySwapChainSupport,
App.cpp lines 328-348). -/
structure SwapChainSupportDetails where
  capabilities : VkSurfaceCapabilitiesKHR
  formats : List VkSurfaceFormatKHR
  presentModes : List VkPresentModeKHR
deriving DecidableEq

/-- App.querySwapChainSupport (App.cpp lines 328-348): returns the surface
capabilities, formats and present modes reported for the device.  When the
driver reports a count of zero the C++ vector stays empty, which is exactly
the empty list here. -/
def querySwapChainSupport (device : PhysicalDevice) : SwapChainSupportDetails :=
  { capabilities := device.capabilities
    formats := device.formats
    presentModes := device.presentModes }

/-- QueueFamilyIndices (App.hpp): two optional uint32 family indices. -/
structure QueueFamilyIndices where
  graphicsFamily : Option Nat
  presentFamily : Option Nat
deriving DecidableEq

/-- QueueFamilyIndices.isComplete: both indices have values. -/
def QueueFamilyIndices.isComplete (indices : QueueFamilyIndices) : Bool :=
  indices.graphicsFamily.isSome && indices.presentFamily.isSome

/-- One iteration of the App.findQueueFamilies loop body (App.cpp lines
240-246): record index i for the graphics role if the family has the graphics
bit, and for the present role if the family can present. -/
def updateQueueFamilyIndices (i : Nat) (indices : QueueFamilyIndices)
    (queueFamily : VkQueueFamilyProperties) : QueueFamilyIndices :=
  let indices1 :=
    if queueFamily.graphicsSupport then { indices with graphicsFamily := some i } else indices
  if queueFamily.presentSupport then { indices1 with presentFamily := some i } else indices1

/-- The loop of App.findQueueFamilies (App.cpp lines 238-251): walk the queue
families with a running index, update the recorded indices per family, and
break out of the loop as soon as both roles are recorded (line 248-249). -/
def findQueueFamiliesGo : Nat → QueueFamilyIndices → List VkQueueFamilyProperties →
    QueueFamilyIndices
| _, indices, [] => indices
| i, indices, queueFamily :: rest =>
  let indices2 := updateQueueFamilyIndices i indices queueFamily
  if indices2.isComplete then indices2 else findQueueFamiliesGo (i + 1) indices2 rest

/-- App.findQueueFamilies (App.cpp lines 230-253). -/
def findQueueFamilies (device : PhysicalDevice) : QueueFamilyIndices :=
  findQueueFamiliesGo 0 { graphicsFamily := none, presentFamily := none } device.queueFamilies

/-- App.checkDeviceExtensionSupport (App.cpp lines 256-268).  The C++ builds
the set of required extensions, erases every available extension name from it,
and succeeds when the set is empty; that is, every required extension occurs
among the available ones. -/
def checkDeviceExtensionSupport (device : PhysicalDevice) : Bool :=
  deviceExtensions.all (fun required => device.supportedExtensions.contains required)

/-- App.isDeviceSuitable (App.cpp lines 210-227): the required queue families
are found, the required extensions are supported, and (only queried in that
case) the swapchain support has at least one format and one present mode. -/
def isDeviceSuitable (device : PhysicalDevice) : Bool :=
  let indices := findQueueFamilies device
  let extensionsSupported := checkDeviceExtensionSupport device
  let swapChainAdequate :=
    if extensionsSupported then
      let swapChainSupport := querySwapChainSupport device
      !swapChainSupport.formats.isEmpty && !swapChainSupport.presentModes.isEmpty
    else false
  indices.isComplete && extensionsSupported && swapChainAdequate

/-- App.pickPhysicalDevice (App.cpp lines 177-207): if the enumeration is
empty, throw "failed to find GPUs with Vulkan support!"; otherwise take the
first suitable device; if none is suitable, throw
"failed to find a suitable GPU!". -/
def pickPhysicalDevice (devices : List PhysicalDevice) : Except String PhysicalDevice :=
  if devices.isEmpty then
    Except.error "failed to find GPUs with Vulkan support!"
  else
    match devices.find? isDeviceSuitable with
    | some device => Except.ok device
    | none => Except.error "failed to find a suitable GPU!"

/-- The preference test of App.chooseSwapSurfaceFormat (App.cpp lines
356-357): 32-bit sRGB-encoded BGRA with sRGB-nonlinear color space. -/
def preferredSurfaceFormat (f : VkSurfaceFormatKHR) : Bool :=
  f.format == VkFormat.B8G8R8A8_SRGB && f.colorSpace == VkColorSpaceKHR.SRGB_NONLINEAR

/-- App.chooseSwapSurfaceFormat (App.cpp lines 351-361): the first available
format passing the preference test, else availableFormats[0].  The fallback
indexes element 0 unconditionally; on an empty vector that access is out of
bounds, modelled here as the `none` result. -/
def chooseSwapSurfaceFormat (availableFormats : List VkSurfaceFormatKHR) :
    Option VkSurfaceFormatKHR :=
  match availableFormats.find? preferredSurfaceFormat with
  | some availableFormat => some availableFormat
  | none => availableFormats.head?

/-- App.chooseSwapPresentMode (App.cpp lines 365-381): mailbox if available,
else FIFO. -/
def chooseSwapPresentMode (availablePresentModes : List VkPresentModeKHR) : VkPresentModeKHR :=
  match availablePresentModes.find? (fun m => m == VkPresentModeKHR.mailbox) with
  | some availablePresentMode => availablePresentMode
  | none => VkPresentModeKHR.fifo

/-- App.chooseSwapExtent (App.cpp lines 384-408).  The sentinel test of line
391 compares only the width against uint32Max; when it fires, the window
framebuffer size (from glfwGetFramebufferSize, an input here) is clamped per
axis as max(minImageExtent, min(maxImageExtent, actualExtent)). -/
def chooseSwapExtent (capabilities : VkSurfaceCapabilitiesKHR)
    (framebufferWidth framebufferHeight : Nat) : VkExtent2D :=
  if capabilities.currentExtent.width ≠ uint32Max then
    capabilities.currentExtent
  else
    { width := max capabilities.minImageExtent.width
        (min capabilities.maxImageExtent.width framebufferWidth)
      height := max capabilities.minImageExtent.height
        (min capabilities.maxImageExtent.height framebufferHeight) }

/-- The requested image count computed in App.createSwapChain (App.cpp lines
424-429): minImageCount + 1 in uint32 arithmetic (hence the explicit wrap),
then clamped down to maxImageCount when that is nonzero and exceeded. -/
def requestedImageCount (capabilities : VkSurfaceCapabilitiesKHR) : Nat :=
  let imageCount := (capabilities.minImageCount + 1) % 4294967296
  if capabilities.maxImageCount > 0 ∧ imageCount > capabilities.maxImageCount then
    capabilities.maxImageCount
  else
    imageCount

/-- VkSharingMode (App.cpp lines 450, 454). -/
inductive VkSharingMode
| exclusive
| concurrent
deriving DecidableEq

/-- The sharing-related fields of VkSwapchainCreateInfoKHR set in App.cpp
lines 449-457. -/
structure SwapchainSharingInfo where
  imageSharingMode : VkSharingMode
  queueFamilyIndexCount : Nat
  pQueueFamilyIndices : List Nat
deriving DecidableEq

/-- The sharing-mode decision of App.createSwapChain (App.cpp lines 443-457),
as a function of the selected graphics and present family indices: concurrent
with both families listed when they differ, exclusive with none listed when
they coincide. -/
def swapchainSharingInfo (graphicsFamily presentFamily : Nat) : SwapchainSharingInfo :=
  if graphicsFamily ≠ presentFamily then
    { imageSharingMode := VkSharingMode.concurrent
      queueFamilyIndexCount := 2
      pQueueFamilyIndices := [graphicsFamily, presentFamily] }
  else
    { imageSharingMode := VkSharingMode.exclusive
      queueFamilyIndexCount := 0
      pQueueFamilyIndices := [] }

/-!  The per-frame loop (App.drawFrame, App.cpp lines 951-1016) and the
synchronization objects (App.createSyncObjects, lines 907-925). -/

/-- The two semaphores created in App.createSyncObjects. -/
inductive VkSemaphoreId
| imageAvailable
| renderFinished
deriving DecidableEq

/-- The single fence created in App.createSyncObjects. -/
inductive VkFenceId
| inFlight
deriving DecidableEq

/-- The single pipeline stage used in the submit wait-stage mask
(App.cpp line 976). -/
inductive VkPipelineStageFlag
| colorAttachmentOutput
deriving DecidableEq

/-- The fields of VkSubmitInfo set in App.drawFrame (lines 968-989).  The
uint32 count fields of the C++ struct are the lengths of these lists. -/
structure VkSubmitInfo where
  waitSemaphores : List VkSemaphoreId
  waitDstStageMask : List VkPipelineStageFlag
  commandBufferCount : Nat
  signalSemaphores : List VkSemaphoreId
deriving DecidableEq

/-- The fields of VkPresentInfoKHR set in App.drawFrame (lines 1000-1010). -/
structure VkPresentInfo where
  waitSemaphores : List VkSemaphoreId
  swapchainCount : Nat
deriving DecidableEq

/-- The submit description of App.drawFrame: wait on imageAvailable at the
color-attachment-output stage (lines 971-980), one command buffer (982-983),
signal renderFinished on completion (987-989). -/
def drawSubmitInfo : VkSubmitInfo :=
  { waitSemaphores := [VkSemaphoreId.imageAvailable]
    waitDstStageMask := [VkPipelineStageFlag.colorAttachmentOutput]
    commandBufferCount := 1
    signalSemaphores := [VkSemaphoreId.renderFinished] }

/-- The present description of App.drawFrame: wait on renderFinished
(lines 1003-1004), one swapchain (1008). -/
def drawPresentInfo : VkPresentInfo :=
  { waitSemaphores := [VkSemaphoreId.renderFinished]
    swapchainCount := 1 }

/-- The externally visible operations a single drawFrame tick performs, in
order. -/
inductive FrameOp
| waitForFence (fence : VkFenceId)
| resetFence (fence : VkFenceId)
| acquireNextImage (signalSemaphore : VkSemaphoreId)
| resetCommandBuffer
| recordCommandBuffer
| queueSubmit (info : VkSubmitInfo) (fence : VkFenceId)
| queuePresent (info : VkPresentInfo)
deriving DecidableEq

/-- The operation sequence of one App.drawFrame tick (App.cpp lines 951-1016):
wait on the in-flight fence, reset it, acquire the next image signalling
imageAvailable, reset and re-record the command buffer, submit with
drawSubmitInfo and the in-flight fence, present with drawPresentInfo. -/
def drawFrameOps : List FrameOp :=
  [FrameOp.waitForFence VkFenceId.inFlight,
   FrameOp.resetFence VkFenceId.inFlight,
   FrameOp.acquireNextImage VkSemaphoreId.imageAvailable,
   FrameOp.resetCommandBuffer,
   FrameOp.recordCommandBuffer,
   FrameOp.queueSubmit drawSubmitInfo VkFenceId.inFlight,
   FrameOp.queuePresent drawPresentInfo]

/-- The one field of VkFenceCreateInfo the code sets: whether
VK_FENCE_CREATE_SIGNALED_BIT is in the flags. -/
structure VkFenceCreateInfo where
  signaled : Bool
deriving DecidableEq

/-- fenceInfo in App.createSyncObjects (App.cpp lines 911-916): the in-flight
fence is created in the signaled state. -/
def fenceInfo : VkFenceCreateInfo :=
  { signaled := true }

/-- Whether a vkWaitForFences call with unbounded timeout blocks: it does
exactly when the fence is not yet signaled. -/
def waitForFenceBlocks (fenceSignaled : Bool) : Bool :=
  !fenceSignaled

/-- Whether the wait of the very first drawFrame tick blocks: the fence state
it observes is the creation state from fenceInfo. -/
def firstTickWaitBlocks : Bool :=
  waitForFenceBlocks fenceInfo.signaled

/-- VkResult values relevant to the per-frame calls. -/
inductive VkResult
| success
| suboptimalKHR
| errorOutOfDateKHR
| errorDeviceLost
deriving DecidableEq

/-- The error outcome of one App.drawFrame tick as a function of the results
returned by the three per-frame calls.  The result of vkAcquireNextImageKHR
(App.cpp line 959) is not inspected by the code; a non-success result from
vkQueueSubmit (lines 994-996) or vkQueuePresentKHR (lines 1012-1014) throws,
and the present call is only reached when the submit check passed. -/
def drawFrameResult (acquireResult submitResult presentResult : VkResult) :
    Except String Unit :=
  let _ := acquireResult
  if submitResult ≠ VkResult.success then
    Except.error "Failed to submit draw command buffer"
  else if presentResult ≠ VkResult.success then
    Except.error "Failed to present swap chain image"
  else
    Except.ok ()

/-!  Creation and destruction order of the GPU/window objects
(App.App, App.cpp lines 28-66, and App.cleanup, lines 1019-1037). -/

/-- The objects created during startup and destroyed during cleanup.  The
Nat-indexed constructors identify the i-th image view and i-th framebuffer of
a swapchain with n images. -/
inductive Obj
| window
| inst
| surface
| device
| swapchain
| imageView (i : Nat)
| renderPass
| pipelineLayout
| pipeline
| framebuffer (i : Nat)
| commandPool
| imageAvailableSemaphore
| renderFinishedSemaphore
| inFlightFence
deriving DecidableEq

/-- The creation order performed by App.App (App.cpp lines 28-66) with its
sub-functions inlined, for a swapchain of n images: window (initVulkan),
instance, surface, logical device, swapchain, the n image views in index
order, render pass, pipeline layout, pipeline, the n framebuffers in index
order, command pool, then in createSyncObjects the imageAvailable semaphore,
the renderFinished semaphore and the in-flight fence (lines 918-922, evaluated
left to right). -/
def createOrder (n : Nat) : List Obj :=
  [Obj.window, Obj.inst, Obj.surface, Obj.device, Obj.swapchain]
  ++ (List.range n).map Obj.imageView
  ++ [Obj.renderPass, Obj.pipelineLayout, Obj.pipeline]
  ++ (List.range n).map Obj.framebuffer
  ++ [Obj.commandPool, Obj.imageAvailableSemaphore, Obj.renderFinishedSemaphore,
      Obj.inFlightFence]

/-- The destruction order performed by App.cleanup (App.cpp lines 1019-1037):
renderFinished semaphore, imageAvailable semaphore, in-flight fence, command
pool, the framebuffers in ascending index order, pipeline, pipeline layout,
render pass, the image views in ascending index order, swapchain, device,
surface, instance, window. -/
def destroyOrder (n : Nat) : List Obj :=
  [Obj.renderFinishedSemaphore, Obj.imageAvailableSemaphore, Obj.inFlightFence,
   Obj.commandPool]
  ++ (List.range n).map Obj.framebuffer
  ++ [Obj.pipeline, Obj.pipelineLayout, Obj.renderPass]
  ++ (List.range n).map Obj.imageView
  ++ [Obj.swapchain, Obj.device, Obj.surface, Obj.inst, Obj.window]

/-- The reference-dependency relation between the created objects: dependsOn a
b holds when a holds a reference to b (directly or as its parent object), so
that a must be destroyed before b. -/
def dependsOn : Obj → Obj → Bool
| Obj.surface, Obj.inst => true
| Obj.surface, Obj.window => true
| Obj.device, Obj.inst => true
| Obj.swapchain, Obj.device => true
| Obj.swapchain, Obj.surface => true
| Obj.imageView _, Obj.swapchain => true
| Obj.imageView _, Obj.device => true
| Obj.renderPass, Obj.device => true
| Obj.pipelineLayout, Obj.device => true
| Obj.pipeline, Obj.pipelineLayout => true
| Obj.pipeline, Obj.renderPass => true
| Obj.pipeline, Obj.device => true
| Obj.framebuffer i, Obj.imageView j => i == j
| Obj.framebuffer _, Obj.renderPass => true
| Obj.framebuffer _, Obj.device => true
| Obj.commandPool, Obj.device => true
| Obj.imageAvailableSemaphore, Obj.device => true
| Obj.renderFinishedSemaphore, Obj.device => true
| Obj.inFlightFence, Obj.device => true
| _, _ => false

/-- The position of the destruction phase of each object within
App.cleanup; objects of the same phase (the per-image views, the per-image
framebuffers) share a rank. -/
def destroyRank : Obj → Nat
| Obj.renderFinishedSemaphore => 0
| Obj.imageAvailableSemaphore => 1
| Obj.inFlightFence => 2
| Obj.commandPool => 3
| Obj.framebuffer _ => 4
| Obj.pipeline => 5
| Obj.pipelineLayout => 6
| Obj.renderPass => 7
| Obj.imageView _ => 8
| Obj.swapchain => 9
| Obj.device => 10
| Obj.surface => 11
| Obj.inst => 12
| Obj.window => 13

/-!  The process boundary (main.cpp). -/

/-- What the process does after main returns or after an exception escapes. -/
inductive MainOutcome
| exited (code : Nat) (loggedErrors : List String)
| terminatedUncaught (message : String)
deriving DecidableEq

/-- The body of App.App (App.cpp lines 28-66): the construction steps run
first, and the constructor then calls mainLoop() itself (line 65), so any
frame error is also raised inside the constructor. -/
def appCtor (constructionSteps frameLoop : Except String Unit) : Except String Unit := do
  constructionSteps
  frameLoop

/-- main (main.cpp lines 4-17): `new App()` runs the whole constructor outside
the try block, so an exception from it escapes main uncaught and the process
terminates abnormally; only the `app->run()` call is inside the try, whose
catch logs the message, after which main returns 0. -/
def mainModel (appConstruction runResult : Except String Unit) : MainOutcome :=
  match appConstruction with
  | Except.error e => MainOutcome.terminatedUncaught e
  | Except.ok _ =>
    match runResult with
    | Except.error e => MainOutcome.exited 0 [e]
    | Except.ok _ => MainOutcome.exited 0 []

/-!  Concrete sample devices and capability values, used by the witnesses. -/

/-- Sample capabilities: a defined current extent and ordinary bounds. -/
def sampleCapabilities : VkSurfaceCapabilitiesKHR :=
  { minImageCount := 2
    maxImageCount := 8
    currentExtent := { width := 1000, height := 600 }
    minImageExtent := { width := 1, height := 1 }
    maxImageExtent := { width := 4096, height := 4096 }  }

/-- A device satisfying every selection requirement. -/
def goodDevice : PhysicalDevice :=
  { queueFamilies := [{ graphicsSupport := true, presentSupport := true }]
    supportedExtensions := ["VK_KHR_swapchain"]
    capabilities := sampleCapabilities
    formats := [{ format := VkFormat.B8G8R8A8_SRGB,
                  colorSpace := VkColorSpaceKHR.SRGB_NONLINEAR }]
    presentModes := [VkPresentModeKHR.fifo] }

/-- A device failing the selection requirements (no graphics family, no
swapchain extension, no formats, no present modes). -/
def badDevice : PhysicalDevice :=
  { queueFamilies := [{ graphicsSupport := false, presentSupport := true }]
    supportedExtensions := []
    capabilities := sampleCapabilities
    formats := []
    presentModes := [] }

/-- Capabilities whose current extent has the sentinel value in its width
component only (width = uint32Max, height = 42), so the extent as a whole is
not the sentinel pair, yet the code takes the clamping branch. -/
def mixedSentinelCapabilities : VkSurfaceCapabilitiesKHR :=
  { minImageCount := 2
    maxImageCount := 8
    currentExtent := { width := uint32Max, height := 42 }
    minImageExtent := { width := 0, height := 0 }
    maxImageExtent := { width := 100, height := 100 } }

/-- Capabilities at the uint32 boundary: minImageCount = maxImageCount =
uint32Max, so minImageCount + 1 wraps to 0 in uint32 arithmetic. -/
def boundaryCapabilities : VkSurfaceCapabilitiesKHR :=
  { minImageCount := 4294967295
    maxImageCount := 4294967295
    currentExtent := { width := 1000, height := 600 }
    minImageExtent := { width := 1, height := 1 }
    maxImageExtent := { width := 4096, height := 4096 } }

/-- The capabilities of end-to-end scenario 3: sentinel current extent,
minimum extent (100,100), maximum extent (4096,4096). -/
def scenario3Capabilities : VkSurfaceCapabilitiesKHR :=
  { minImageCount := 2
    maxImageCount := 8
    currentExtent := { width := uint32Max, height := uint32Max }
    minImageExtent := { width := 100, height := 100 }
    maxImageExtent := { width := 4096, height := 4096 } }

/-- The four conditions of the device-selection claim, stated the way the
specification states them: some queue family supports graphics, some queue
family supports presentation, every mandatory extension is supported, and the
queried surface support has at least one format and at least one present
mode. -/
def suitableSpec (d : PhysicalDevice) : Prop :=
  (∃ q ∈ d.queueFamilies, q.graphicsSupport = true) ∧
  (∃ q ∈ d.queueFamilies, q.presentSupport = true) ∧
  (∀ e ∈ deviceExtensions, e ∈ d.supportedExtensions) ∧
  d.formats ≠ [] ∧ d.presentModes ≠ []

/-!  Helper lemmas. -/

/-- find? returns some a exactly when the list splits as a prefix of
non-matching elements followed by a, the first match. -/
theorem find?_eq_some_first {α : Type} (p : α → Bool) :
    ∀ (l : List α) (a : α), l.find? p = some a ↔
      ∃ l1 l2, l = l1 ++ a :: l2 ∧ p a = true ∧ ∀ x ∈ l1, p x = false := by
  intro l
  induction l with
  | nil => intro a; simp
  | cons x xs ih =>
    intro a
    by_cases h : p x = true
    · rw [List.find?_cons_of_pos xs h]
      constructor
      · intro hsome
        injection hsome with hxa
        subst hxa
        exact ⟨[], xs, rfl, h, by simp⟩
      · rintro ⟨l1, l2, heq, hpa, hall⟩
        cases l1 with
        | nil =>
          simp only [List.nil_append, List.cons.injEq] at heq
          rw [heq.1]
        | cons y ys =>
          simp only [List.cons_append, List.cons.injEq] at heq
          have hy := hall y (List.mem_cons_self y ys)
          rw [← heq.1] at hy
          rw [hy] at h
          exact Bool.noConfusion h
    · rw [List.find?_cons_of_neg xs h]
      rw [ih a]
      constructor
      · rintro ⟨l1, l2, heq, hpa, hall⟩
        refine ⟨x :: l1, l2, by rw [heq, List.cons_append], hpa, ?_⟩
        intro z hz
        rcases List.mem_cons.mp hz with hzx | hzl
        · rw [hzx]
          exact Bool.eq_false_iff.mpr h
        · exact hall z hzl
      · rintro ⟨l1, l2, heq, hpa, hall⟩
        cases l1 with
        | nil =>
          simp only [List.nil_append, List.cons.injEq] at heq
          rw [heq.1] at h
          exact absurd hpa h
        | cons y ys =>
          simp only [List.cons_append, List.cons.injEq] at heq
          refine ⟨ys, l2, heq.2, hpa, ?_⟩
          intro z hz
          exact hall z (List.mem_cons_of_mem y hz)

/-- One loop iteration records the graphics role exactly when it already was
recorded or the scanned family supports graphics. -/
theorem updateQueueFamilyIndices_graphics (i : Nat) (acc : QueueFamilyIndices)
    (q : VkQueueFamilyProperties) :
    (updateQueueFamilyIndices i acc q).graphicsFamily.isSome =
      (acc.graphicsFamily.isSome || q.graphicsSupport) := by
  cases hg : q.graphicsSupport <;> cases hp : q.presentSupport <;>
    simp [updateQueueFamilyIndices, hg, hp]

/-- One loop iteration records the present role exactly when it already was
recorded or the scanned family supports presentation. -/
theorem updateQueueFamilyIndices_present (i : Nat) (acc : QueueFamilyIndices)
    (q : VkQueueFamilyProperties) :
    (updateQueueFamilyIndices i acc q).presentFamily.isSome =
      (acc.presentFamily.isSome || q.presentSupport) := by
  cases hg : q.graphicsSupport <;> cases hp : q.presentSupport <;>
    simp [updateQueueFamilyIndices, hg, hp]

/-- The early-exit scan of findQueueFamiliesGo ends complete exactly when each
role is either already recorded in the accumulator or supported by some
remaining family. -/
theorem findQueueFamiliesGo_isComplete (l : List VkQueueFamilyProperties) :
    ∀ (i : Nat) (acc : QueueFamilyIndices),
      (findQueueFamiliesGo i acc l).isComplete = true ↔
        ((acc.graphicsFamily.isSome = true ∨ ∃ q ∈ l, q.graphicsSupport = true) ∧
         (acc.presentFamily.isSome = true ∨ ∃ q ∈ l, q.presentSupport = true)) := by
  induction l with
  | nil =>
    intro i acc
    simp [findQueueFamiliesGo, QueueFamilyIndices.isComplete]
  | cons q rest ih =>
    intro i acc
    have hG := updateQueueFamilyIndices_graphics i acc q
    have hP := updateQueueFamilyIndices_present i acc q
    simp only [findQueueFamiliesGo]
    split
    · rename_i hcomp
      have hcomp2 := hcomp
      simp only [QueueFamilyIndices.isComplete, Bool.and_eq_true] at hcomp2
      obtain ⟨h1, h2⟩ := hcomp2
      rw [hG, Bool.or_eq_true] at h1
      rw [hP, Bool.or_eq_true] at h2
      constructor
      · intro _
        refine ⟨?_, ?_⟩
        · rcases h1 with ha | hq
          · exact Or.inl ha
          · exact Or.inr ⟨q, List.mem_cons_self q rest, hq⟩
        · rcases h2 with ha | hq
          · exact Or.inl ha
          · exact Or.inr ⟨q, List.mem_cons_self q rest, hq⟩
      · intro _
        exact hcomp
    · rename_i hcomp
      rw [ih]
      rw [hG, hP]
      simp only [Bool.or_eq_true, List.mem_cons]
      constructor
      · rintro ⟨hx, hy⟩
        refine ⟨?_, ?_⟩
        · rcases hx with (ha | hq) | ⟨w, hw, hwg⟩
          · exact Or.inl ha
          · exact Or.inr ⟨q, Or.inl rfl, hq⟩
          · exact Or.inr ⟨w, Or.inr hw, hwg⟩
        · rcases hy with (ha | hq) | ⟨w, hw, hwp⟩
          · exact Or.inl ha
          · exact Or.inr ⟨q, Or.inl rfl, hq⟩
          · exact Or.inr ⟨w, Or.inr hw, hwp⟩
      · rintro ⟨hx, hy⟩
        refine ⟨?_, ?_⟩
        · rcases hx with ha | ⟨w, hwmem, hwg⟩
          · exact Or.inl (Or.inl ha)
          · rcases hwmem with rfl | hw
            · exact Or.inl (Or.inr hwg)
            · exact Or.inr ⟨w, hw, hwg⟩
        · rcases hy with ha | ⟨w, hwmem, hwp⟩
          · exact Or.inl (Or.inl ha)
          · rcases hwmem with rfl | hw
            · exact Or.inl (Or.inr hwp)
            · exact Or.inr ⟨w, hw, hwp⟩

/-- The Bool suitability check of the code agrees with the four conditions as
the specification states them. -/
theorem isDeviceSuitable_iff (d : PhysicalDevice) :
    isDeviceSuitable d = true ↔ suitableSpec d := by
  have hqf : (findQueueFamilies d).isComplete = true ↔
      ((∃ q ∈ d.queueFamilies, q.graphicsSupport = true) ∧
       (∃ q ∈ d.queueFamilies, q.presentSupport = true)) := by
    rw [findQueueFamilies, findQueueFamiliesGo_isComplete]
    simp
  have hext : checkDeviceExtensionSupport d = true ↔
      ∀ e ∈ deviceExtensions, e ∈ d.supportedExtensions := by
    unfold checkDeviceExtensionSupport
    simp [List.all_eq_true]
  have hunfold : isDeviceSuitable d =
      ((findQueueFamilies d).isComplete && checkDeviceExtensionSupport d &&
        (if checkDeviceExtensionSupport d then
          (!d.formats.isEmpty && !d.presentModes.isEmpty) else false)) := rfl
  rw [hunfold]
  unfold suitableSpec
  by_cases hE : checkDeviceExtensionSupport d = true
  · rw [hE]
    simp only [Bool.and_true, if_true, Bool.and_eq_true, hqf, Bool.not_eq_eq_eq_not,
      Bool.not_true, List.isEmpty_eq_false_iff_exists_mem]
    constructor
    · rintro ⟨⟨hg, hp⟩, hf, hm⟩
      refine ⟨hg, hp, hext.mp hE, ?_, ?_⟩
      · rcases hf with ⟨x, hx⟩
        exact List.ne_nil_of_mem hx
      · rcases hm with ⟨x, hx⟩
        exact List.ne_nil_of_mem hx
    · rintro ⟨hg, hp, -, hf, hm⟩
      exact ⟨⟨hg, hp⟩, List.exists_mem_of_ne_nil _ hf, List.exists_mem_of_ne_nil _ hm⟩
  · have hEfalse : checkDeviceExtensionSupport d = false := Bool.eq_false_iff.mpr hE
    rw [hEfalse]
    simp only [Bool.and_false, if_false, Bool.false_eq_true, false_iff]
    rintro ⟨-, -, hall, -, -⟩
    exact hE (hext.mpr hall)

/-- C2: for every ordered list of candidate physical devices, selection
returns the first candidate for which all four conditions hold (some queue
family supports graphics, some supports presentation, the mandatory swapchain
extension is supported, and the queried surface support has at least one
format and one present mode), and it fails with an error if and only if no
candidate satisfies all four, the empty candidate list included. -/
theorem pickPhysicalDevice_first_suitable (devices : List PhysicalDevice) :
    (∀ d, pickPhysicalDevice devices = Except.ok d ↔
      ∃ l1 l2, devices = l1 ++ d :: l2 ∧ suitableSpec d ∧ ∀ x ∈ l1, ¬ suitableSpec x)
    ∧ ((∃ e, pickPhysicalDevice devices = Except.error e) ↔
        ∀ d ∈ devices, ¬ suitableSpec d) := by
  constructor
  · intro d
    by_cases hemp : devices.isEmpty = true
    · rw [List.isEmpty_iff] at hemp
      subst hemp
      constructor
      · intro h
        exact Except.noConfusion h
      · rintro ⟨l1, l2, heq, -, -⟩
        cases l1 <;> simp at heq
    · unfold pickPhysicalDevice
      rw [if_neg hemp]
      cases hfind : devices.find? isDeviceSuitable with
      | some d0 =>
        constructor
        · intro hok
          injection hok with hd
          subst hd
          obtain ⟨l1, l2, heq, hpd, hall⟩ :=
            (find?_eq_some_first isDeviceSuitable devices d0).mp hfind
          refine ⟨l1, l2, heq, (isDeviceSuitable_iff d0).mp hpd, ?_⟩
          intro x hx hs
          have hfalse := hall x hx
          have htrue := (isDeviceSuitable_iff x).mpr hs
          rw [hfalse] at htrue
          exact Bool.noConfusion htrue
        · rintro ⟨l1, l2, heq, hsd, hall⟩
          have hsome : devices.find? isDeviceSuitable = some d := by
            rw [find?_eq_some_first]
            refine ⟨l1, l2, heq, (isDeviceSuitable_iff d).mpr hsd, ?_⟩
            intro x hx
            exact Bool.eq_false_iff.mpr (fun ht => hall x hx ((isDeviceSuitable_iff x).mp ht))
          rw [hfind] at hsome
          injection hsome with h
          rw [h]
      | none =>
        constructor
        · intro h
          exact Except.noConfusion h
        · rintro ⟨l1, l2, heq, hsd, hall⟩
          have hsome : devices.find? isDeviceSuitable = some d := by
            rw [find?_eq_some_first]
            exact ⟨l1, l2, heq, (isDeviceSuitable_iff d).mpr hsd,
              fun x hx => Bool.eq_false_iff.mpr
                (fun ht => hall x hx ((isDeviceSuitable_iff x).mp ht))⟩
          rw [hfind] at hsome
          exact Option.noConfusion hsome
  · by_cases hemp : devices.isEmpty = true
    · rw [List.isEmpty_iff] at hemp
      subst hemp
      constructor
      · intro _
        intro x hx
        exact absurd hx (List.not_mem_nil x)
      · intro _
        exact ⟨"failed to find GPUs with Vulkan support!", rfl⟩
    · unfold pickPhysicalDevice
      rw [if_neg hemp]
      cases hfind : devices.find? isDeviceSuitable with
      | some d0 =>
        constructor
        · rintro ⟨e, he⟩
          exact Except.noConfusion he
        · intro hall
          exact absurd ((isDeviceSuitable_iff d0).mp (List.find?_some hfind))
            (hall d0 (List.mem_of_find?_eq_some hfind))
      | none =>
        constructor
        · intro _
          intro x hx hs
          exact List.find?_eq_none.mp hfind x hx ((isDeviceSuitable_iff x).mpr hs)
        · intro _
          exact ⟨"failed to find a suitable GPU!", rfl⟩

/-- Witness for the device-selection theorem at a concrete candidate list: an
unsuitable device followed by a suitable one; selection returns the second. -/
theorem pickPhysicalDevice_first_suitable_witness :
    pickPhysicalDevice [badDevice, goodDevice] = Except.ok goodDevice :=
  ((pickPhysicalDevice_first_suitable [badDevice, goodDevice]).1 goodDevice).mpr
    ⟨[badDevice], [], rfl, by unfold suitableSpec; decide,
      by intro x hx; simp only [List.mem_singleton] at hx; subst hx; unfold suitableSpec; decide⟩

/-- C8: for every non-empty sequence of available surface formats, selection
returns the first entry that is 32-bit sRGB-encoded BGRA with sRGB-nonlinear
color space when one exists, and the first element of the sequence otherwise.
Selection is a pure function of the input sequence, hence deterministic and
idempotent: the same sequence always yields the same output. -/
theorem chooseSwapSurfaceFormat_first_match (availableFormats : List VkSurfaceFormatKHR)
    (h : availableFormats ≠ []) :
    ((∃ f ∈ availableFormats, preferredSurfaceFormat f = true) →
      ∃ l1 r l2, availableFormats = l1 ++ r :: l2 ∧ preferredSurfaceFormat r = true ∧
        (∀ x ∈ l1, preferredSurfaceFormat x = false) ∧
        chooseSwapSurfaceFormat availableFormats = some r)
    ∧ ((∀ f ∈ availableFormats, preferredSurfaceFormat f = false) →
      ∃ r, availableFormats.head? = some r ∧
        chooseSwapSurfaceFormat availableFormats = some r) := by
  constructor
  · rintro ⟨f, hf, hpf⟩
    cases hfind : availableFormats.find? preferredSurfaceFormat with
    | none =>
      exact absurd hpf (List.find?_eq_none.mp hfind f hf)
    | some r =>
      obtain ⟨l1, l2, heq, hpr, hall⟩ :=
        (find?_eq_some_first preferredSurfaceFormat availableFormats r).mp hfind
      refine ⟨l1, r, l2, heq, hpr, hall, ?_⟩
      unfold chooseSwapSurfaceFormat
      rw [hfind]
  · intro hallf
    have hfind : availableFormats.find? preferredSurfaceFormat = none :=
      List.find?_eq_none.mpr (fun x hx ht => by
        rw [hallf x hx] at ht
        exact Bool.noConfusion ht)
    obtain ⟨r, rest, hcons⟩ := List.exists_cons_of_ne_nil h
    subst hcons
    refine ⟨r, rfl, ?_⟩
    unfold chooseSwapSurfaceFormat
    rw [hfind]
    rfl

/-- Witness for the format-selection theorem at a concrete sequence with no
preferred entry: selection falls back to the first element. -/
theorem chooseSwapSurfaceFormat_first_match_witness :
    ∃ r, ([{ format := VkFormat.B8G8R8A8_UNORM, colorSpace := VkColorSpaceKHR.HDR10_ST2084 },
           { format := VkFormat.R8G8B8A8_SRGB, colorSpace := VkColorSpaceKHR.SRGB_NONLINEAR }] :
            List VkSurfaceFormatKHR).head? = some r ∧
      chooseSwapSurfaceFormat
        [{ format := VkFormat.B8G8R8A8_UNORM, colorSpace := VkColorSpaceKHR.HDR10_ST2084 },
         { format := VkFormat.R8G8B8A8_SRGB, colorSpace := VkColorSpaceKHR.SRGB_NONLINEAR }] = some r :=
  (chooseSwapSurfaceFormat_first_match _ (by decide)).2 (by decide)

/-- C10: the fallback branch of format selection indexes element 0
unconditionally, so on the empty sequence the access is out of bounds
(modelled as `none`); but for any device actually returned by device
selection, the queried format list is non-empty (suitability requires it), so
the swapchain-creation call of format selection always produces a value. -/
theorem chooseSwapSurfaceFormat_guarded_by_selection :
    chooseSwapSurfaceFormat [] = none
    ∧ ∀ (devices : List PhysicalDevice) (d : PhysicalDevice),
        pickPhysicalDevice devices = Except.ok d →
        (chooseSwapSurfaceFormat (querySwapChainSupport d).formats).isSome = true := by
  constructor
  · rfl
  · intro devices d hok
    have hsuit : isDeviceSuitable d = true := by
      unfold pickPhysicalDevice at hok
      by_cases hemp : devices.isEmpty = true
      · rw [if_pos hemp] at hok
        exact Except.noConfusion hok
      · rw [if_neg hemp] at hok
        cases hfind : devices.find? isDeviceSuitable with
        | some d0 =>
          rw [hfind] at hok
          injection hok with h
          rw [← h]
          exact List.find?_some hfind
        | none =>
          rw [hfind] at hok
          exact Except.noConfusion hok
    have hformats : d.formats ≠ [] := ((isDeviceSuitable_iff d).mp hsuit).2.2.2.1
    show (chooseSwapSurfaceFormat d.formats).isSome = true
    unfold chooseSwapSurfaceFormat
    cases hfind : d.formats.find? preferredSurfaceFormat with
    | some r =>
      rfl
    | none =>
      obtain ⟨r, rest, hcons⟩ := List.exists_cons_of_ne_nil hformats
      rw [hcons]
      rfl

/-- Witness for the guarded-format-selection theorem at a concrete selection
outcome. -/
theorem chooseSwapSurfaceFormat_guarded_by_selection_witness :
    (chooseSwapSurfaceFormat (querySwapChainSupport goodDevice).formats).isSome = true :=
  chooseSwapSurfaceFormat_guarded_by_selection.2 [goodDevice] goodDevice rfl

/-- C1: in a frame tick the first three operations are, in order, the blocking
wait on the in-flight completion fence, its reset, and the image acquire; the
submission declares exactly one wait, on the image-available semaphore at the
color-attachment-output stage, and declares completion to signal both the
render-finished semaphore and the in-flight fence; presentation waits on the
render-finished semaphore; and the fence is created pre-signaled, so the wait
of the very first tick does not block. -/
theorem drawFrame_synchronization :
    drawFrameOps.take 3 =
      [FrameOp.waitForFence VkFenceId.inFlight,
       FrameOp.resetFence VkFenceId.inFlight,
       FrameOp.acquireNextImage VkSemaphoreId.imageAvailable]
    ∧ FrameOp.queueSubmit drawSubmitInfo VkFenceId.inFlight ∈ drawFrameOps
    ∧ drawSubmitInfo.waitSemaphores = [VkSemaphoreId.imageAvailable]
    ∧ drawSubmitInfo.waitDstStageMask = [VkPipelineStageFlag.colorAttachmentOutput]
    ∧ drawSubmitInfo.signalSemaphores = [VkSemaphoreId.renderFinished]
    ∧ FrameOp.queuePresent drawPresentInfo ∈ drawFrameOps
    ∧ drawPresentInfo.waitSemaphores = [VkSemaphoreId.renderFinished]
    ∧ fenceInfo.signaled = true
    ∧ firstTickWaitBlocks = false := by
  decide

/-- C3 counterexample: with a non-success acquire result and successful submit
and present, the tick completes normally, so a non-success acquire result is
not fatal. -/
theorem drawFrame_ignores_acquire_result :
    VkResult.errorOutOfDateKHR ≠ VkResult.success
    ∧ drawFrameResult VkResult.errorOutOfDateKHR VkResult.success VkResult.success =
        Except.ok () :=
  ⟨by decide, rfl⟩

/-- C3 (amended): a non-success result from the queue-submit call or the
present call fails the frame fatally, while the result of the image-acquire
call is ignored; the tick completes normally if and only if submit and present
both return success, regardless of the acquire result. -/
theorem drawFrameResult_ok_iff (acquireResult submitResult presentResult : VkResult) :
    drawFrameResult acquireResult submitResult presentResult = Except.ok () ↔
      (submitResult = VkResult.success ∧ presentResult = VkResult.success) := by
  unfold drawFrameResult
  by_cases hs : submitResult = VkResult.success <;>
    by_cases hp : presentResult = VkResult.success <;>
    simp [hs, hp]

/-- Witness for the amended frame-error theorem at concrete results. -/
theorem drawFrameResult_ok_iff_witness :
    VkResult.success = VkResult.success ∧ VkResult.success = VkResult.success :=
  (drawFrameResult_ok_iff VkResult.errorOutOfDateKHR VkResult.success VkResult.success).mp rfl

/-- C4: at the failing input the claim is violated by the code: because
main.cpp constructs the App outside the try block and the App constructor
performs every construction step and then runs the whole frame loop, an error
raised during construction (here a failed instance creation) or during a
frame (here a failed submit) escapes main uncaught and the process terminates
abnormally instead of logging once and exiting 0; only an error raised by
the post-loop run() call would be caught, logged and followed by exit 0. -/
theorem main_construction_error_uncaught :
    mainModel (appCtor (Except.error "Failed to create instance") (Except.ok ()))
        (Except.ok ())
      = MainOutcome.terminatedUncaught "Failed to create instance"
    ∧ mainModel
        (appCtor (Except.ok ()) (Except.error "Failed to submit draw command buffer"))
        (Except.ok ())
      = MainOutcome.terminatedUncaught "Failed to submit draw command buffer"
    ∧ (∀ e, mainModel (Except.ok ()) (Except.error e) = MainOutcome.exited 0 [e]) :=
  ⟨rfl, rfl, fun _ => rfl⟩

/-- C6 counterexample: capabilities whose current extent is not the sentinel
pair (its height is 42, not the sentinel), yet extent selection does not
return the current extent verbatim: the code tests only the width component,
takes the clamping branch, and returns the clamped framebuffer size. -/
theorem chooseSwapExtent_width_only_sentinel :
    mixedSentinelCapabilities.currentExtent ≠
      { width := uint32Max, height := uint32Max }
    ∧ chooseSwapExtent mixedSentinelCapabilities 5 5 ≠
        mixedSentinelCapabilities.currentExtent := by
  decide

/-- C6 (amended): the sentinel test examines only the width component of the
reported current extent; when the width is not the sentinel value the current
extent is returned verbatim, and otherwise the window framebuffer size is
clamped per axis into the min/max image extent bounds independently; in
particular, sentinel extent with min (100,100), max (4096,4096) and
framebuffer size (50,50) yields (100,100). -/
theorem chooseSwapExtent_spec (capabilities : VkSurfaceCapabilitiesKHR)
    (framebufferWidth framebufferHeight : Nat) :
    (capabilities.currentExtent.width ≠ uint32Max →
      chooseSwapExtent capabilities framebufferWidth framebufferHeight =
        capabilities.currentExtent)
    ∧ (capabilities.currentExtent.width = uint32Max →
      chooseSwapExtent capabilities framebufferWidth framebufferHeight =
        { width := max capabilities.minImageExtent.width
            (min capabilities.maxImageExtent.width framebufferWidth),
          height := max capabilities.minImageExtent.height
            (min capabilities.maxImageExtent.height framebufferHeight) })
    ∧ chooseSwapExtent scenario3Capabilities 50 50 = { width := 100, height := 100 } := by
  refine ⟨?_, ?_, by decide⟩
  · intro h
    unfold chooseSwapExtent
    rw [if_pos h]
  · intro h
    unfold chooseSwapExtent
    rw [if_neg (by rw [h]; exact fun hc => hc rfl)]

/-- Witness for the extent-selection theorem at concrete capabilities with a
defined current extent. -/
theorem chooseSwapExtent_spec_witness :
    chooseSwapExtent sampleCapabilities 7 9 = sampleCapabilities.currentExtent :=
  (chooseSwapExtent_spec sampleCapabilities 7 9).1 (by decide)

/-- C7 counterexample: capabilities with minImageCount = maxImageCount =
uint32Max (nonzero maximum, minimum not exceeding maximum); minImageCount + 1
wraps to 0 in uint32 arithmetic, the clamp condition does not fire, so the
requested count is 0, below the declared minimum. -/
theorem requestedImageCount_overflow :
    boundaryCapabilities.maxImageCount ≠ 0
    ∧ boundaryCapabilities.minImageCount ≤ boundaryCapabilities.maxImageCount
    ∧ ¬ boundaryCapabilities.minImageCount ≤ requestedImageCount boundaryCapabilities := by
  decide

/-- C7 (amended): provided minImageCount + 1 does not overflow uint32, the
requested swapchain image count equals minImageCount + 1 when maxImageCount
is 0 (unbounded) or when minImageCount + 1 does not exceed maxImageCount, and
equals maxImageCount otherwise; hence whenever maxImageCount is nonzero and
minImageCount does not exceed it, the requested count lies between the two. -/
theorem requestedImageCount_spec (capabilities : VkSurfaceCapabilitiesKHR)
    (hnooverflow : capabilities.minImageCount + 1 < 4294967296) :
    ((capabilities.maxImageCount = 0 ∨
        capabilities.minImageCount + 1 ≤ capabilities.maxImageCount) →
      requestedImageCount capabilities = capabilities.minImageCount + 1)
    ∧ ((capabilities.maxImageCount ≠ 0 ∧
        capabilities.maxImageCount < capabilities.minImageCount + 1) →
      requestedImageCount capabilities = capabilities.maxImageCount)
    ∧ (capabilities.maxImageCount ≠ 0 →
        capabilities.minImageCount ≤ capabilities.maxImageCount →
      capabilities.minImageCount ≤ requestedImageCount capabilities
        ∧ requestedImageCount capabilities ≤ capabilities.maxImageCount) := by
  have hmod : (capabilities.minImageCount + 1) % 4294967296 =
      capabilities.minImageCount + 1 := Nat.mod_eq_of_lt hnooverflow
  unfold requestedImageCount
  rw [hmod]
  refine ⟨?_, ?_, ?_⟩
  · intro hcase
    rw [if_neg]
    rintro ⟨hpos, hgt⟩
    rcases hcase with hzero | hle
    · omega
    · omega
  · rintro ⟨hnz, hlt⟩
    rw [if_pos]
    exact ⟨by omega, hlt⟩
  · intro hnz hle
    by_cases hclamp : capabilities.maxImageCount > 0 ∧
        capabilities.minImageCount + 1 > capabilities.maxImageCount
    · rw [if_pos hclamp]
      omega
    · rw [if_neg hclamp]
      omega

/-- Witness for the image-count theorem at concrete capabilities
(minimum 2, maximum 8: the requested count is 3). -/
theorem requestedImageCount_spec_witness :
    requestedImageCount sampleCapabilities = sampleCapabilities.minImageCount + 1 :=
  (requestedImageCount_spec sampleCapabilities (by decide)).1 (Or.inr (by decide))

/-- C9: the swapchain is created in concurrent sharing mode listing exactly
the two distinct family indices if and only if the selected graphics and
present queue family indices differ; otherwise it is created exclusive with
zero family indices listed. -/
theorem swapchainSharingInfo_spec (graphicsFamily presentFamily : Nat) :
    ((swapchainSharingInfo graphicsFamily presentFamily).imageSharingMode =
        VkSharingMode.concurrent ↔ graphicsFamily ≠ presentFamily)
    ∧ (graphicsFamily ≠ presentFamily →
        swapchainSharingInfo graphicsFamily presentFamily =
          { imageSharingMode := VkSharingMode.concurrent
            queueFamilyIndexCount := 2
            pQueueFamilyIndices := [graphicsFamily, presentFamily] })
    ∧ (graphicsFamily = presentFamily →
        swapchainSharingInfo graphicsFamily presentFamily =
          { imageSharingMode := VkSharingMode.exclusive
            queueFamilyIndexCount := 0
            pQueueFamilyIndices := [] }) := by
  by_cases hne : graphicsFamily ≠ presentFamily
  · unfold swapchainSharingInfo
    rw [if_pos hne]
    exact ⟨by simp [hne], fun _ => rfl, fun heq => absurd heq hne⟩
  · unfold swapchainSharingInfo
    rw [if_neg hne]
    refine ⟨?_, fun hne2 => absurd hne2 hne, fun _ => rfl⟩
    constructor
    · intro hmode
      exact VkSharingMode.noConfusion hmode
    · intro hne2
      exact absurd hne2 hne

/-- Witness for the sharing-mode theorem at distinct family indices 0 and 1. -/
theorem swapchainSharingInfo_spec_witness :
    swapchainSharingInfo 0 1 =
      { imageSharingMode := VkSharingMode.concurrent
        queueFamilyIndexCount := 2
        pQueueFamilyIndices := [0, 1] } :=
  (swapchainSharingInfo_spec 0 1).2.1 (by decide)

/-- In the destroy order the rank of any later element is at least the rank
of any earlier one: cleanup proceeds through the destruction phases in rank
order. -/
theorem destroyOrder_sorted (n : Nat) :
    (destroyOrder n).Pairwise (fun a b => destroyRank a ≤ destroyRank b) := by
  have hfb : ∀ b ∈ (List.range n).map Obj.framebuffer, destroyRank b = 4 := by
    intro b hb
    simp only [List.mem_map] at hb
    obtain ⟨i, -, rfl⟩ := hb
    rfl
  have hiv : ∀ b ∈ (List.range n).map Obj.imageView, destroyRank b = 8 := by
    intro b hb
    simp only [List.mem_map] at hb
    obtain ⟨i, -, rfl⟩ := hb
    rfl
  have hA : ∀ a ∈ [Obj.renderFinishedSemaphore, Obj.imageAvailableSemaphore,
      Obj.inFlightFence, Obj.commandPool], destroyRank a ≤ 3 := by decide
  have hC : ∀ a ∈ [Obj.pipeline, Obj.pipelineLayout, Obj.renderPass],
      5 ≤ destroyRank a ∧ destroyRank a ≤ 7 := by decide
  have hE : ∀ b ∈ [Obj.swapchain, Obj.device, Obj.surface, Obj.inst, Obj.window],
      9 ≤ destroyRank b := by decide
  unfold destroyOrder
  refine List.pairwise_append.mpr ⟨?_, by decide, ?_⟩
  · refine List.pairwise_append.mpr ⟨?_, ?_, ?_⟩
    · refine List.pairwise_append.mpr ⟨?_, by decide, ?_⟩
      · refine List.pairwise_append.mpr ⟨by decide, ?_, ?_⟩
        · rw [List.pairwise_map]
          exact List.pairwise_iff_get.mpr (fun i j _ => by simp [destroyRank])
        · intro a ha b hb
          rw [hfb b hb]
          exact le_trans (hA a ha) (by omega)
      · intro a ha b hb
        have hb5 := (hC b hb).1
        rcases List.mem_append.mp ha with h1 | h2
        · exact le_trans (hA a h1) (by omega)
        · rw [hfb a h2]
          omega
    · rw [List.pairwise_map]
      exact List.pairwise_iff_get.mpr (fun i j _ => by simp [destroyRank])
    · intro a ha b hb
      rw [hiv b hb]
      rcases List.mem_append.mp ha with h12 | h3
      · rcases List.mem_append.mp h12 with h1 | h2
        · exact le_trans (hA a h1) (by omega)
        · rw [hfb a h2]
          omega
      · exact le_trans (hC a h3).2 (by omega)
  · intro a ha b hb
    have hb9 := hE b hb
    rcases List.mem_append.mp ha with h123 | h4
    · rcases List.mem_append.mp h123 with h12 | h3
      · rcases List.mem_append.mp h12 with h1 | h2
        · exact le_trans (hA a h1) (by omega)
        · rw [hfb a h2]
          omega
      · exact le_trans (hC a h3).2 (by omega)
    · rw [hiv a h4]
      omega

/-- Reference dependency implies strictly smaller destruction rank. -/
theorem dependsOn_destroyRank (a b : Obj) (h : dependsOn a b = true) :
    destroyRank a < destroyRank b := by
  cases a <;> cases b <;> simp_all [dependsOn, destroyRank]

/-- C5 counterexample: already with a single swapchain image the destruction
sequence is not the exact reverse of the creation sequence (cleanup destroys
the renderFinished semaphore first, while the exact reverse of creation would
destroy the in-flight fence first). -/
theorem cleanup_not_exact_reverse :
    destroyOrder 1 ≠ (createOrder 1).reverse := by
  decide

/-- C5 (amended): destruction proceeds through the creation phases in reverse
order, but not element-for-element: the three sync objects are destroyed as
renderFinished, imageAvailable, fence although created as imageAvailable,
renderFinished, fence, and the per-image views and framebuffers are destroyed
in ascending creation index order; nevertheless every object is destroyed
strictly before any object it depends on, for every swapchain image count. -/
theorem cleanup_destroys_dependents_first (n : Nat)
    (i j : Fin (destroyOrder n).length)
    (h : dependsOn ((destroyOrder n).get i) ((destroyOrder n).get j) = true) :
    i < j := by
  have hrank := dependsOn_destroyRank _ _ h
  have hsorted := List.pairwise_iff_get.mp (destroyOrder_sorted n)
  rcases lt_trichotomy i j with hlt | heq | hgt
  · exact hlt
  · rw [heq] at hrank
    exact absurd hrank (lt_irrefl _)
  · exact absurd hrank (not_lt.mpr (hsorted j i hgt))

/-- Witness for the destruction-order theorem at one swapchain image: the
framebuffer (position 4) is destroyed before the image view it references
(position 8). -/
theorem cleanup_destroys_dependents_first_witness :
    (⟨4, by decide⟩ : Fin (destroyOrder 1).length) < ⟨8, by decide⟩ :=
  cleanup_destroys_dependents_first 1 ⟨4, by decide⟩ ⟨8, by decide⟩ (by decide)
